import Mathlib

/- Shallow embedding of the Samsung S5K3L6XX camera sensor driver
   (drivers/media/i2c/s5k3l6xx.c): the register transport with its sticky
   error latch, the mode catalog and its register programs, the debug
   override table, the power/stream state machine, format negotiation and
   the runtime control surface.  Bus activity is recorded as an explicit
   transaction trace; the i2c adapter, the power primitives and the V4L2
   control-handler callback are oracles supplied as parameters. -/

set_option maxHeartbeats 1000000
set_option maxRecDepth 4000

/-! ## Register and catalog data model -/

def S5K3L6XX_REG_FRAME_COUNT : Nat := 0x0005
def S5K3L6XX_REG_LANE_MODE : Nat := 0x0114
def S5K3L6XX_REG_COARSE_INTEGRATION_TIME : Nat := 0x0202
def S5K3L6XX_REG_ANALOG_GAIN : Nat := 0x0204
def S5K3L6XX_REG_DIGITAL_GAIN : Nat := 0x020e
def S5K3L6XX_REG_TEST_PATTERN_MODE : Nat := 0x0601
def S5K3L6XX_TEST_PATTERN_SOLID_COLOR : Nat := 0x01
def S5K3L6XX_TEST_PATTERN_COLOR_BAR : Nat := 0x02
def S5K3L6XX_REG_TEST_DATA_RED : Nat := 0x0602
def S5K3L6XX_REG_TEST_DATA_GREENR : Nat := 0x0604
def S5K3L6XX_REG_TEST_DATA_BLUE : Nat := 0x0606
def S5K3L6XX_REG_TEST_DATA_GREENB : Nat := 0x0608
def S5K3L6XX_REG_AF : Nat := 0x3403
def S5K3L6XX_REG_AF_BIT_FILTER : Nat := 0b100
def S5K3L6XX_REG_MODE_SELECT : Nat := 0x100
def S5K3L6XX_MODE_STREAMING : Nat := 0x1
def S5K3L6XX_MODE_STANDBY : Nat := 0x0
def S5K3L6XX_REG_DATA_FORMAT : Nat := 0x0112
def S5K3L6XX_DATA_FORMAT_RAW8 : Nat := 0x0808

/-- Media bus pixel code used by every catalog entry (8-bit Bayer GRBG). -/
def MEDIA_BUS_FMT_SGRBG8_1X8 : Nat := 0x3002

def V4L2_COLORSPACE_DEFAULT : Nat := 0
def V4L2_COLORSPACE_RAW : Nat := 11
def V4L2_FIELD_NONE : Nat := 1

def EBUSY : Int := 16
def EINVAL : Int := 22
def EFBIG : Int := 27

def REGSTABLE_SIZE : Nat := 4096

/-- Truncating cast to an unsigned 8-bit quantity (as the C `(u8)` cast). -/
def u8cast (x : Int) : Nat := (x % 256).toNat

/-- One entry of a register program: `struct s5k3l6xx_reg`. -/
structure s5k3l6xx_reg where
  address : Nat
  val : Nat
  size : Nat
deriving DecidableEq

/-- One sensor operating mode: `struct s5k3l6xx_frame`. -/
structure s5k3l6xx_frame where
  name : String
  width : Nat
  height : Nat
  code : Nat
  streamregs : List s5k3l6xx_reg
deriving DecidableEq

/-- Register program of the 1052x780 (1:4 binned) mode. -/
def frame_1052x780px_8bit_xfps_2lane : List s5k3l6xx_reg :=
  [ ⟨0x0136, 0x1900, 2⟩,
    ⟨0x034c, 0x041c, 2⟩,
    ⟨0x0342, 0x1320, 2⟩,
    ⟨0x034e, 0x030c, 2⟩,
    ⟨0x030e, 0x0036, 2⟩,
    ⟨0x0346, 0x0000, 2⟩,
    ⟨0x034a, 0x0c30, 2⟩,
    ⟨0x0344, 0x0008, 2⟩,
    ⟨0x0348, 0x1077, 2⟩,
    ⟨0x0900, 0x01, 1⟩,
    ⟨0x0901, 0x44, 1⟩,
    ⟨0x0387, 0x07, 1⟩,
    ⟨0x3074, 0x0974, 2⟩ ]

/-- Register program of the 2104x1560 (1:2 binned) mode. -/
def frame_2104x1560px_8bit_xfps_2lane : List s5k3l6xx_reg :=
  [ ⟨0x0136, 0x1900, 2⟩,
    ⟨0x034c, 0x0838, 2⟩,
    ⟨0x034e, 0x0618, 2⟩,
    ⟨0x030e, 0x0053, 2⟩,
    ⟨0x0346, 0x0000, 2⟩,
    ⟨0x034a, 0x0c30, 2⟩,
    ⟨0x0344, 0x0000, 2⟩,
    ⟨0x0348, 0x1068, 2⟩,
    ⟨0x0900, 0x01, 1⟩,
    ⟨0x0901, 0x22, 1⟩,
    ⟨0x0387, 0x03, 1⟩,
    ⟨0x3074, 0x0974, 2⟩,
    ⟨S5K3L6XX_REG_AF, 0x42 ||| S5K3L6XX_REG_AF_BIT_FILTER, 1⟩ ]

/-- Register program of the 4208x3120 (unscaled) mode. -/
def frame_4208x3120px_8bit_xfps_2lane : List s5k3l6xx_reg :=
  [ ⟨0x0136, 0x1900, 2⟩,
    ⟨0x034c, 0x1070, 2⟩,
    ⟨0x034e, 0x0c30, 2⟩,
    ⟨0x030e, 0x0033, 2⟩,
    ⟨0x0346, 0x0000, 2⟩,
    ⟨0x034a, 0x0c30, 2⟩,
    ⟨0x0344, 0x0000, 2⟩,
    ⟨0x0348, 0x1068, 2⟩,
    ⟨0x0342, 0x3600, 2⟩,
    ⟨0x3074, 0x0977, 2⟩,
    ⟨S5K3L6XX_REG_AF, 0x42 ||| S5K3L6XX_REG_AF_BIT_FILTER, 1⟩ ]

/-- The synthetic mode installed when `debug_frame` is set. -/
def s5k3l6xx_frame_debug : s5k3l6xx_frame :=
  { name := "debug_empty", width := 640, height := 480,
    code := MEDIA_BUS_FMT_SGRBG8_1X8, streamregs := [] }

/-- The mode catalog `s5k3l6xx_frames`. -/
def s5k3l6xx_frames : List s5k3l6xx_frame :=
  [ { name := "1:4 8bpp ?fps", width := 1052, height := 780,
      code := MEDIA_BUS_FMT_SGRBG8_1X8,
      streamregs := frame_1052x780px_8bit_xfps_2lane },
    { name := "1:2 8bpp +fps", width := 2104, height := 1560,
      code := MEDIA_BUS_FMT_SGRBG8_1X8,
      streamregs := frame_2104x1560px_8bit_xfps_2lane },
    { name := "1:1 8bpp ?fps", width := 4208, height := 3120,
      code := MEDIA_BUS_FMT_SGRBG8_1X8,
      streamregs := frame_4208x3120px_8bit_xfps_2lane } ]

/-! ## Bus transactions and the device state -/

/-- One i2c_transfer call issued to the adapter. -/
inductive Txn where
  | write1 (addr val : Nat)
  | write2 (addr val : Nat)
  | read (addr : Nat)
deriving DecidableEq

/-- Power-control side effects performed by the power on/off sequences. -/
inductive PwrAct where
  | reg_enable
  | reg_disable
  | clk_set_rate
  | clk_enable
  | clk_disable
  | gpio_assert
  | gpio_deassert
  | sleep
deriving DecidableEq

/-- Oracle for the i2c adapter: for the nth i2c_transfer call issued, whether
it returns its expected message count, the value it returns instead when it
does not (this value gets latched as the sticky error), and the byte a read
transfer produces. -/
structure I2CBus where
  ok : Nat → Bool
  err : Nat → Int
  rval : Nat → Nat

/-- Oracle for the regulator/clock primitives consumed by the power sequences. -/
structure PwrOracle where
  regulator_enable_ret : Int
  clk_set_rate_ret : Int
  clk_prepare_enable_ret : Int
  regulator_disable_ret : Int

/-- The driver instance state `struct s5k3l6xx`, together with the recorded
bus-transaction trace and power-action trace. -/
structure S5K3L6 where
  error : Int
  txns : List Txn
  streaming : Bool
  power : Nat
  apply_cfg : Bool
  apply_crop : Bool
  apply_test_solid : Bool
  frame_fmt : s5k3l6xx_frame
  nlanes : Nat
  debug_frame : Nat
  debug_address : Nat
  debug_regs : List (Nat × Nat)
  reset_asserted : Bool
  clk_enabled : Bool
  clock_valid : Bool
  regulator_enabled : Bool
  acts : List PwrAct
deriving DecidableEq

/-! ## Register transport -/

/-- `__s5k3l6xx_i2c_read`: a no-op returning 0 while the sticky error is
latched; otherwise issues one read transfer and latches its return value on
failure. -/
def __s5k3l6xx_i2c_read (bus : I2CBus) (st : S5K3L6) (addr : Nat) : Nat × S5K3L6 :=
  if st.error ≠ 0 then (0, st)
  else
    let i := st.txns.length
    let st1 := { st with txns := st.txns ++ [Txn.read addr] }
    if bus.ok i then (bus.rval i, st1)
    else (bus.rval i, { st1 with error := bus.err i })

/-- `s5k3l6xx_i2c_read` only adds a debug print over the raw read. -/
def s5k3l6xx_i2c_read (bus : I2CBus) (st : S5K3L6) (addr : Nat) : Nat × S5K3L6 :=
  __s5k3l6xx_i2c_read bus st addr

/-- `s5k3l6xx_i2c_write`: single-byte write; a no-op while the sticky error is
latched; otherwise issues the write transfer, latches its return value on
failure, then reads the same address back purely for logging (a mismatch is
only printed). -/
def s5k3l6xx_i2c_write (bus : I2CBus) (st : S5K3L6) (addr val : Nat) : S5K3L6 :=
  if st.error ≠ 0 then st
  else
    let i := st.txns.length
    let st1 := { st with txns := st.txns ++ [Txn.write1 addr val] }
    let st2 := if bus.ok i then st1 else { st1 with error := bus.err i }
    (s5k3l6xx_i2c_read bus st2 addr).2

/-- `s5k3l6xx_i2c_write2`: double-byte write, no read-back. -/
def s5k3l6xx_i2c_write2 (bus : I2CBus) (st : S5K3L6) (addr val : Nat) : S5K3L6 :=
  if st.error ≠ 0 then st
  else
    let i := st.txns.length
    let st1 := { st with txns := st.txns ++ [Txn.write2 addr val] }
    if bus.ok i then st1 else { st1 with error := bus.err i }

/-- `s5k3l6xx_submit_regs`: applies a register program entry by entry,
choosing the 2-byte or the 1-byte (with `(u8)` cast) write per entry. -/
def s5k3l6xx_submit_regs (bus : I2CBus) : S5K3L6 → List s5k3l6xx_reg → S5K3L6
  | st, [] => st
  | st, r :: rest =>
    let st := if r.size = 2 then s5k3l6xx_i2c_write2 bus st r.address r.val
              else s5k3l6xx_i2c_write bus st r.address (r.val % 256)
    s5k3l6xx_submit_regs bus st rest

def s5k3l6xx_read (bus : I2CBus) (st : S5K3L6) (addr : Nat) : Nat × S5K3L6 :=
  s5k3l6xx_i2c_read bus st addr

def s5k3l6xx_write (bus : I2CBus) (st : S5K3L6) (addr val : Nat) : S5K3L6 :=
  s5k3l6xx_i2c_write bus st addr val

/-- `s5k3l6xx_submit_regstable` over the debug override entries; at debug
level 5 and above each entry is preceded by a diagnostic read. -/
def s5k3l6xx_submit_regstable (bus : I2CBus) (dbg : Nat) : S5K3L6 → List (Nat × Nat) → S5K3L6
  | st, [] => st
  | st, e :: rest =>
    let st := if 5 ≤ dbg then (__s5k3l6xx_i2c_read bus st e.1).2 else st
    let st := s5k3l6xx_i2c_write bus st e.1 e.2
    s5k3l6xx_submit_regstable bus dbg st rest

/-- `s5k3l6xx_clear_error`: atomically returns the latched error (0 when
none) and resets the latch. -/
def s5k3l6xx_clear_error (st : S5K3L6) : Int × S5K3L6 :=
  (st.error, { st with error := 0 })

/-! ## Hardware configuration sequence -/

/-- The fixed post-mode register set `setstream`. -/
def setstream : List s5k3l6xx_reg :=
  [ ⟨S5K3L6XX_REG_DATA_FORMAT, S5K3L6XX_DATA_FORMAT_RAW8, 2⟩,
    ⟨0x307a, 0x0d00, 2⟩ ]

/-- `s5k3l6xx_hw_set_config`: mode program, then the fixed post-mode
registers (data format, the 0x307a noise-reduction override, the lane count),
then the debug override table. -/
def s5k3l6xx_hw_set_config (bus : I2CBus) (dbg : Nat) (st : S5K3L6) : S5K3L6 :=
  let st := s5k3l6xx_submit_regs bus st st.frame_fmt.streamregs
  let st := s5k3l6xx_submit_regs bus st setstream
  let st := s5k3l6xx_write bus st S5K3L6XX_REG_LANE_MODE (u8cast ((st.nlanes : Int) - 1))
  s5k3l6xx_submit_regstable bus dbg st st.debug_regs

/-- `s5k3l6xx_hw_set_test_pattern`. -/
def s5k3l6xx_hw_set_test_pattern (bus : I2CBus) (st : S5K3L6) (id : Nat) : S5K3L6 :=
  s5k3l6xx_write bus st S5K3L6XX_REG_TEST_PATTERN_MODE id

/-- `s5k3l6xx_hw_set_stream`: writes the mode-select register. -/
def s5k3l6xx_hw_set_stream (bus : I2CBus) (st : S5K3L6) (enable : Bool) : S5K3L6 :=
  s5k3l6xx_i2c_write bus st S5K3L6XX_REG_MODE_SELECT
    (if enable then S5K3L6XX_MODE_STREAMING else S5K3L6XX_MODE_STANDBY)

/-! ## Power sequences -/

/-- Shared roll-back of `s5k3l6xx_power_on`: disable the regulator only when
it is enabled, then report the first failure. -/
def s5k3l6xx_power_on_rollback (st : S5K3L6) (ret : Int) : Int × S5K3L6 :=
  if st.regulator_enabled then
    (ret, { st with regulator_enabled := false, acts := st.acts ++ [PwrAct.reg_disable] })
  else (ret, st)

/-- `s5k3l6xx_power_on`: regulator, clock rate, clock enable, settle, reset
deassert; a failed step rolls back and returns the first failure. -/
def s5k3l6xx_power_on (o : PwrOracle) (st : S5K3L6) : Int × S5K3L6 :=
  let st := { st with acts := st.acts ++ [PwrAct.reg_enable] }
  if o.regulator_enable_ret < 0 then (o.regulator_enable_ret, st)
  else
    let st := { st with regulator_enabled := true }
    let st := { st with acts := st.acts ++ [PwrAct.clk_set_rate] }
    if o.clk_set_rate_ret < 0 then s5k3l6xx_power_on_rollback st o.clk_set_rate_ret
    else
      let st := { st with acts := st.acts ++ [PwrAct.clk_enable] }
      if o.clk_prepare_enable_ret < 0 then s5k3l6xx_power_on_rollback st o.clk_prepare_enable_ret
      else
        (0, { st with clk_enabled := true, reset_asserted := false,
                      acts := st.acts ++ [PwrAct.sleep, PwrAct.gpio_deassert] })

/-- `s5k3l6xx_power_off`: clears `streaming` (and the apply flags) first,
asserts reset, disables the clock when it is valid, disables the regulator
only when it is enabled; always returns 0 (a regulator-disable failure is
only logged). -/
def s5k3l6xx_power_off (st : S5K3L6) : Int × S5K3L6 :=
  let st := { st with streaming := false, apply_cfg := false, apply_crop := false }
  let st := { st with reset_asserted := true, acts := st.acts ++ [PwrAct.gpio_assert] }
  let st := if st.clock_valid then
              { st with clk_enabled := false, acts := st.acts ++ [PwrAct.clk_disable] }
            else st
  if st.regulator_enabled then
    (0, { st with regulator_enabled := false, acts := st.acts ++ [PwrAct.reg_disable] })
  else (0, st)

/-- `s5k3l6xx_set_power`: guarded by `state->power != !on`; powering on runs
the power-on sequence, drains the sticky error and bumps the power count only
on full success; powering off runs the never-failing power-off sequence and
decrements the count, returning 0. -/
def s5k3l6xx_set_power (o : PwrOracle) (st : S5K3L6) (onReq : Bool) : Int × S5K3L6 :=
  if st.power ≠ (if onReq then 0 else 1) then (0, st)
  else if onReq then
    let p := s5k3l6xx_power_on o st
    if p.1 < 0 then (p.1, p.2)
    else
      let q := s5k3l6xx_clear_error p.2
      if q.1 = 0 then (q.1, { q.2 with power := q.2.power + 1 }) else (q.1, q.2)
  else
    let p := s5k3l6xx_power_off st
    (0, { p.2 with power := p.2.power - 1 })

/-! ## Streaming state machine -/

/-- `s5k3l6xx_s_stream`.  `setup` stands for the external
`v4l2_ctrl_handler_setup` collaborator (which re-enters `s5k3l6xx_s_ctrl` for
every control); `pmret` is what `pm_runtime_get_sync` returns.  A re-entrant
call (streaming flag already equal to the request) returns 0 at once.  After
the configuration or the stop write, the sticky error is drained; the
streaming flag is toggled only when the drained error is 0. -/
def s5k3l6xx_s_stream (bus : I2CBus) (dbg : Nat) (setup : S5K3L6 → Int × S5K3L6)
    (pmret : Int) (st : S5K3L6) (onReq : Bool) : Int × S5K3L6 :=
  if st.streaming = onReq then (0, st)
  else if onReq then
    if pmret < 0 then (pmret, st)
    else
      let p := setup st
      if p.1 < 0 then (p.1, p.2)
      else
        let st := s5k3l6xx_hw_set_config bus dbg p.2
        let st := s5k3l6xx_hw_set_stream bus st true
        let q := s5k3l6xx_clear_error st
        if q.1 = 0 then (q.1, { q.2 with streaming := !q.2.streaming }) else (q.1, q.2)
  else
    let st := s5k3l6xx_hw_set_stream bus st false
    let q := s5k3l6xx_clear_error st
    if q.1 = 0 then (q.1, { q.2 with streaming := !q.2.streaming }) else (q.1, q.2)

/-! ## Format negotiation -/

/-- A media-bus frame format (the fields of `struct v4l2_mbus_framefmt` the
driver looks at). -/
structure v4l2_mbus_framefmt where
  width : Nat
  height : Nat
  code : Nat
  colorspace : Nat
  field : Nat
deriving DecidableEq

/-- Distance of a catalog entry to a requested size: sum of the absolute
width and height differences. -/
def sizeDist (f : s5k3l6xx_frame) (w h : Nat) : Nat :=
  ((f.width : Int) - (w : Int)).natAbs + ((f.height : Int) - (h : Int)).natAbs

/-- Modelled from the spec: the helper `v4l2_find_nearest_size` used by
`s5k3l6xx_try_cis_format` lives in the kernel's V4L2 core, which is not among
this repository's sources.  The spec describes it as picking the catalog
entry whose (width, height) minimizes a distance metric to the request,
independent of encoding.  Modelled as minimizing the sum of absolute
differences, an earlier entry winning ties. -/
def v4l2_find_nearest_size (frames : List s5k3l6xx_frame) (w h : Nat) : s5k3l6xx_frame :=
  match frames with
  | [] => s5k3l6xx_frame_debug
  | f :: rest =>
    rest.foldl (fun best g => if sizeDist g w h < sizeDist best w h then g else best) f

/-- Inner loop of `s5k3l6xx_find_pixfmt`: entries whose colorspace gate or
size fail are skipped; the first entry whose code also matches gives its
index; otherwise -1. -/
def s5k3l6xx_find_pixfmt_list (mf : v4l2_mbus_framefmt) : List s5k3l6xx_frame → Nat → Int
  | [], _ => -1
  | f :: rest, i =>
    if mf.colorspace ≠ V4L2_COLORSPACE_DEFAULT ∧ mf.colorspace ≠ V4L2_COLORSPACE_RAW then
      s5k3l6xx_find_pixfmt_list mf rest (i + 1)
    else if mf.width ≠ f.width ∨ mf.height ≠ f.height then
      s5k3l6xx_find_pixfmt_list mf rest (i + 1)
    else if mf.code = f.code then (i : Int)
    else s5k3l6xx_find_pixfmt_list mf rest (i + 1)

/-- `s5k3l6xx_find_pixfmt`. -/
def s5k3l6xx_find_pixfmt (mf : v4l2_mbus_framefmt) : Int :=
  s5k3l6xx_find_pixfmt_list mf s5k3l6xx_frames 0

/-- `s5k3l6xx_try_cis_format`: nearest-size candidate first, then the
encoding check through `s5k3l6xx_find_pixfmt`; on success the format is
normalized (RAW colorspace, catalog code, no interlacing) and the catalog
index returned. -/
def s5k3l6xx_try_cis_format (mf : v4l2_mbus_framefmt) : Int × v4l2_mbus_framefmt :=
  let mode := v4l2_find_nearest_size s5k3l6xx_frames mf.width mf.height
  let candidate := { mf with width := mode.width, height := mode.height }
  let pixfmt := s5k3l6xx_find_pixfmt candidate
  if pixfmt < 0 then (pixfmt, mf)
  else
    (pixfmt, { mf with colorspace := V4L2_COLORSPACE_RAW,
                       code := (s5k3l6xx_frames.getD pixfmt.toNat s5k3l6xx_frame_debug).code,
                       field := V4L2_FIELD_NONE })

/-- `s5k3l6xx_set_fmt` (with `tryPad` standing for
`V4L2_SUBDEV_FORMAT_TRY`, whose format is stored outside the device state):
returns the status, the device state and the negotiated format. -/
def s5k3l6xx_set_fmt (st : S5K3L6) (tryPad : Bool) (mf0 : v4l2_mbus_framefmt) :
    Int × S5K3L6 × v4l2_mbus_framefmt :=
  let mf := { mf0 with field := V4L2_FIELD_NONE }
  if tryPad then (0, st, mf)
  else if st.streaming then (-EBUSY, st, mf)
  else if st.debug_frame ≠ 0 then
    let st := { st with frame_fmt := s5k3l6xx_frame_debug }
    (0, st, { mf with code := st.frame_fmt.code, colorspace := V4L2_COLORSPACE_RAW })
  else
    let p := s5k3l6xx_try_cis_format mf
    if p.1 = -1 then (-EINVAL, st, p.2)
    else
      let st := { st with frame_fmt := s5k3l6xx_frames.getD p.1.toNat s5k3l6xx_frame_debug }
      (0, st, { p.2 with width := st.frame_fmt.width, height := st.frame_fmt.height,
                         code := st.frame_fmt.code, colorspace := V4L2_COLORSPACE_RAW })

/-! ## Frame size enumeration -/

/-- Result fields of `struct v4l2_subdev_frame_size_enum` filled in by the
driver. -/
structure v4l2_frame_size_enum where
  code : Nat
  min_width : Nat
  max_width : Nat
  min_height : Nat
  max_height : Nat
deriving DecidableEq

/-- The `while (--i)` search of `s5k3l6xx_enum_frame_size`: scans catalog
indices from high to low, stopping at the first code match, or at index 0
without checking its code. -/
def s5k3l6xx_enum_down (code : Nat) : Nat → Nat
  | 0 => 0
  | i + 1 =>
    if (s5k3l6xx_frames.getD (i + 1) s5k3l6xx_frame_debug).code = code then i + 1
    else s5k3l6xx_enum_down code i

/-- `s5k3l6xx_enum_frame_size`: only index 0 is accepted; the reported size
is that of the entry found by the downward scan, as both minimum and
maximum. -/
def s5k3l6xx_enum_frame_size (index code : Nat) : Except Int v4l2_frame_size_enum :=
  if index > 0 then Except.error (-EINVAL)
  else
    let i := s5k3l6xx_enum_down code (s5k3l6xx_frames.length - 1)
    let f := s5k3l6xx_frames.getD i s5k3l6xx_frame_debug
    Except.ok { code := f.code, min_width := f.width, max_width := f.width,
                min_height := f.height, max_height := f.height }

/-! ## Runtime control surface -/

/-- The control ids `s5k3l6xx_s_ctrl` dispatches on (opaque V4L2 numeric ids
are abstracted as a finite enumeration; ids outside the switch fall in
`other`). -/
inductive CtrlId where
  | analogue_gain
  | digital_gain
  | exposure
  | test_pattern
  | test_pattern_red
  | test_pattern_greenr
  | test_pattern_blue
  | test_pattern_greenb
  | other
deriving DecidableEq

/-- Truncating cast to an unsigned 16-bit quantity (as the C `(u16)` cast). -/
def u16cast (x : Int) : Nat := (x % 65536).toNat

/-- `s5k3l6xx_s_ctrl`: a silent success when powered off; otherwise writes
the registers of the selected control and drains the sticky error.  A
test-pattern selection records whether the solid-color pattern is active; a
color-component write always writes the component register and re-writes the
pattern-mode register after it only when the solid-color pattern is
active. -/
def s5k3l6xx_s_ctrl (bus : I2CBus) (st : S5K3L6) (id : CtrlId) (val : Int) : Int × S5K3L6 :=
  if st.power = 0 then (0, st)
  else
    let st :=
      match id with
      | CtrlId.analogue_gain =>
        s5k3l6xx_i2c_write2 bus st S5K3L6XX_REG_ANALOG_GAIN (u16cast val &&& 0x3ff)
      | CtrlId.digital_gain =>
        s5k3l6xx_i2c_write2 bus st S5K3L6XX_REG_DIGITAL_GAIN (u16cast val &&& 0xfff)
      | CtrlId.exposure =>
        s5k3l6xx_i2c_write2 bus st S5K3L6XX_REG_COARSE_INTEGRATION_TIME (u16cast val)
      | CtrlId.test_pattern =>
        let st := { st with apply_test_solid := val = (S5K3L6XX_TEST_PATTERN_SOLID_COLOR : Int) }
        s5k3l6xx_hw_set_test_pattern bus st (u8cast val)
      | CtrlId.test_pattern_red =>
        let st := s5k3l6xx_i2c_write2 bus st S5K3L6XX_REG_TEST_DATA_RED (u16cast val &&& 0x3ff)
        if st.apply_test_solid then
          s5k3l6xx_hw_set_test_pattern bus st S5K3L6XX_TEST_PATTERN_SOLID_COLOR
        else st
      | CtrlId.test_pattern_greenr =>
        let st := s5k3l6xx_i2c_write2 bus st S5K3L6XX_REG_TEST_DATA_GREENR (u16cast val &&& 0x3ff)
        if st.apply_test_solid then
          s5k3l6xx_hw_set_test_pattern bus st S5K3L6XX_TEST_PATTERN_SOLID_COLOR
        else st
      | CtrlId.test_pattern_blue =>
        let st := s5k3l6xx_i2c_write2 bus st S5K3L6XX_REG_TEST_DATA_BLUE (u16cast val &&& 0x3ff)
        if st.apply_test_solid then
          s5k3l6xx_hw_set_test_pattern bus st S5K3L6XX_TEST_PATTERN_SOLID_COLOR
        else st
      | CtrlId.test_pattern_greenb =>
        let st := s5k3l6xx_i2c_write2 bus st S5K3L6XX_REG_TEST_DATA_GREENB (u16cast val &&& 0x3ff)
        if st.apply_test_solid then
          s5k3l6xx_hw_set_test_pattern bus st S5K3L6XX_TEST_PATTERN_SOLID_COLOR
        else st
      | CtrlId.other => st
    let q := s5k3l6xx_clear_error st
    (q.1, q.2)

/-! ## Debug override table -/

/-- `debug_add`: appends an override unless the table is full or the value
does not fit in a byte. -/
def debug_add (st : S5K3L6) (value : Nat) : Int × S5K3L6 :=
  if st.debug_regs.length ≥ REGSTABLE_SIZE then (-EFBIG, st)
  else if value ≠ value % 256 then (-EINVAL, st)
  else (0, { st with debug_regs := st.debug_regs ++ [(st.debug_address, value % 256)] })

/-- `debug_clear`: empties the override table. -/
def debug_clear (st : S5K3L6) : Int × S5K3L6 :=
  (0, { st with debug_regs := [] })

/-! ## Trace views -/

/-- The writes of a transaction trace, as (address, value) pairs, read
transfers dropped. -/
def writesOf (txns : List Txn) : List (Nat × Nat) :=
  txns.filterMap fun t =>
    match t with
    | Txn.write1 a v => some (a, v)
    | Txn.write2 a v => some (a, v)
    | Txn.read _ => none

/-- Expected transaction trace of one register program on an error-free
bus: a 2-byte entry is one write transfer, a 1-byte entry is a write transfer
followed by a verification read of the same address. -/
def regTxns : List s5k3l6xx_reg → List Txn
  | [] => []
  | r :: rest =>
    (if r.size = 2 then [Txn.write2 r.address r.val]
     else [Txn.write1 r.address (r.val % 256), Txn.read r.address]) ++ regTxns rest

/-- Expected transaction trace of the debug override table on an error-free
bus. -/
def regstableTxns (dbg : Nat) : List (Nat × Nat) → List Txn
  | [] => []
  | e :: rest =>
    ((if 5 ≤ dbg then [Txn.read e.1] else []) ++ [Txn.write1 e.1 e.2, Txn.read e.1])
      ++ regstableTxns dbg rest

/-- The (address, value) pairs a register program writes, with the 1-byte
truncation applied. -/
def modeWrites (f : s5k3l6xx_frame) : List (Nat × Nat) :=
  f.streamregs.map fun r => (r.address, if r.size = 2 then r.val else r.val % 256)

/-- The fixed post-mode writes: data format, the 0x307a noise-reduction
override, the lane count. -/
def postModeWrites (nlanes : Nat) : List (Nat × Nat) :=
  [ (S5K3L6XX_REG_DATA_FORMAT, S5K3L6XX_DATA_FORMAT_RAW8),
    (0x307a, 0x0d00),
    (S5K3L6XX_REG_LANE_MODE, u8cast ((nlanes : Int) - 1)) ]

/-- The full expected configuration trace of `s5k3l6xx_hw_set_config`
followed by the stream-enable write. -/
def configTxns (f : s5k3l6xx_frame) (nlanes dbg : Nat) (overrides : List (Nat × Nat)) : List Txn :=
  regTxns f.streamregs ++ regTxns setstream
    ++ [Txn.write1 S5K3L6XX_REG_LANE_MODE (u8cast ((nlanes : Int) - 1)),
        Txn.read S5K3L6XX_REG_LANE_MODE]
    ++ regstableTxns dbg overrides
    ++ [Txn.write1 S5K3L6XX_REG_MODE_SELECT S5K3L6XX_MODE_STREAMING,
        Txn.read S5K3L6XX_REG_MODE_SELECT]

/-- The last value written to an address by a list of writes. -/
def lastWriteTo (ws : List (Nat × Nat)) (a : Nat) : Option Nat :=
  ((ws.filter fun e => e.1 = a).getLast?).map fun e => e.2

/-! ## Concrete fixtures used by witnesses and counterexamples -/

/-- A bus on which every transfer succeeds. -/
def okBus : I2CBus := { ok := fun _ => true, err := fun _ => 0, rval := fun _ => 0 }

/-- A bus on which every transfer fails with -5 (EIO). -/
def badBus : I2CBus := { ok := fun _ => false, err := fun _ => -5, rval := fun _ => 0 }

/-- A control-handler setup that touches nothing and succeeds. -/
def idSetup : S5K3L6 → Int × S5K3L6 := fun s => (0, s)

/-- A power oracle on which every primitive succeeds. -/
def okPwr : PwrOracle :=
  { regulator_enable_ret := 0, clk_set_rate_ret := 0,
    clk_prepare_enable_ret := 0, regulator_disable_ret := 0 }

/-- A powered-on idle device with mode 0 active and no overrides. -/
def st_idle : S5K3L6 :=
  { error := 0, txns := [], streaming := false, power := 1,
    apply_cfg := false, apply_crop := false, apply_test_solid := false,
    frame_fmt := s5k3l6xx_frames.getD 0 s5k3l6xx_frame_debug, nlanes := 2,
    debug_frame := 0, debug_address := 0, debug_regs := [],
    reset_asserted := false, clk_enabled := true, clock_valid := true,
    regulator_enabled := true, acts := [] }

/-- The idle device with the 2104x1560 mode active and two overrides for
the same address 0x3403. -/
def st_c1 : S5K3L6 :=
  { st_idle with frame_fmt := s5k3l6xx_frames.getD 1 s5k3l6xx_frame_debug,
                 debug_regs := [(0x3403, 0x42), (0x3403, 0x43)] }

/-- The idle device with the 2104x1560 mode active and a single override
(0x3403, 0x42). -/
def st_c1w : S5K3L6 :=
  { st_idle with frame_fmt := s5k3l6xx_frames.getD 1 s5k3l6xx_frame_debug,
                 debug_regs := [(0x3403, 0x42)] }

/-- The bus succeeds on every transfer from the nth one onwards. -/
def busOkFrom (bus : I2CBus) (n : Nat) : Prop := ∀ i, n ≤ i → bus.ok i = true

/-- The component register a test-pattern color control writes. -/
def componentReg : CtrlId → Option Nat
  | CtrlId.test_pattern_red => some S5K3L6XX_REG_TEST_DATA_RED
  | CtrlId.test_pattern_greenr => some S5K3L6XX_REG_TEST_DATA_GREENR
  | CtrlId.test_pattern_blue => some S5K3L6XX_REG_TEST_DATA_BLUE
  | CtrlId.test_pattern_greenb => some S5K3L6XX_REG_TEST_DATA_GREENB
  | _ => none

/-- Equality of two device states on every field except the transaction trace
and the sticky error: the register transport touches nothing else. -/
def sameCore (s t : S5K3L6) : Prop :=
  s.streaming = t.streaming ∧ s.power = t.power ∧ s.apply_cfg = t.apply_cfg ∧
  s.apply_crop = t.apply_crop ∧ s.apply_test_solid = t.apply_test_solid ∧
  s.frame_fmt = t.frame_fmt ∧ s.nlanes = t.nlanes ∧ s.debug_frame = t.debug_frame ∧
  s.debug_address = t.debug_address ∧ s.debug_regs = t.debug_regs ∧
  s.reset_asserted = t.reset_asserted ∧ s.clk_enabled = t.clk_enabled ∧
  s.clock_valid = t.clock_valid ∧ s.regulator_enabled = t.regulator_enabled ∧
  s.acts = t.acts

/-- The body of a color-component case of `s5k3l6xx_s_ctrl`: the immediate
2-byte component write, followed by a re-write of the test-pattern mode
register only when the solid-color pattern is active. -/
def componentArm (bus : I2CBus) (st : S5K3L6) (reg : Nat) (v : Int) : S5K3L6 :=
  let st := s5k3l6xx_i2c_write2 bus st reg (u16cast v &&& 0x3ff)
  if st.apply_test_solid then
    s5k3l6xx_hw_set_test_pattern bus st S5K3L6XX_TEST_PATTERN_SOLID_COLOR
  else st

/-! ## Transport lemmas -/

theorem sameCore_refl (s : S5K3L6) : sameCore s s := by
  simp [sameCore]

theorem sameCore_trans {s t u : S5K3L6} (h1 : sameCore s t) (h2 : sameCore t u) :
    sameCore s u := by
  unfold sameCore at *
  obtain ⟨a1, a2, a3, a4, a5, a6, a7, a8, a9, a10, a11, a12, a13, a14, a15⟩ := h1
  obtain ⟨b1, b2, b3, b4, b5, b6, b7, b8, b9, b10, b11, b12, b13, b14, b15⟩ := h2
  exact ⟨a1.trans b1, a2.trans b2, a3.trans b3, a4.trans b4, a5.trans b5, a6.trans b6,
    a7.trans b7, a8.trans b8, a9.trans b9, a10.trans b10, a11.trans b11, a12.trans b12,
    a13.trans b13, a14.trans b14, a15.trans b15⟩

theorem i2c_read_sameCore (bus : I2CBus) (st : S5K3L6) (a : Nat) :
    sameCore (__s5k3l6xx_i2c_read bus st a).2 st := by
  unfold __s5k3l6xx_i2c_read
  by_cases h : st.error ≠ 0
  · simp [h, sameCore_refl]
  · by_cases h2 : bus.ok st.txns.length = true <;> simp [h, h2, sameCore]

theorem i2c_write_sameCore (bus : I2CBus) (st : S5K3L6) (a v : Nat) :
    sameCore (s5k3l6xx_i2c_write bus st a v) st := by
  unfold s5k3l6xx_i2c_write s5k3l6xx_i2c_read
  by_cases h : st.error ≠ 0
  · simp [h, sameCore_refl]
  · rw [if_neg h]
    refine sameCore_trans (i2c_read_sameCore bus _ a) ?_
    by_cases h2 : bus.ok st.txns.length = true <;> simp [h2, sameCore]

theorem i2c_write2_sameCore (bus : I2CBus) (st : S5K3L6) (a v : Nat) :
    sameCore (s5k3l6xx_i2c_write2 bus st a v) st := by
  unfold s5k3l6xx_i2c_write2
  by_cases h : st.error ≠ 0
  · simp [h, sameCore_refl]
  · by_cases h2 : bus.ok st.txns.length = true <;> simp [h, h2, sameCore]

theorem submit_regs_sameCore (bus : I2CBus) (regs : List s5k3l6xx_reg) :
    ∀ st : S5K3L6, sameCore (s5k3l6xx_submit_regs bus st regs) st := by
  induction regs with
  | nil => intro st; exact sameCore_refl st
  | cons r rest ih =>
    intro st
    unfold s5k3l6xx_submit_regs
    split
    · exact sameCore_trans (ih _) (i2c_write2_sameCore bus st r.address r.val)
    · exact sameCore_trans (ih _) (i2c_write_sameCore bus st r.address (r.val % 256))

theorem submit_regstable_sameCore (bus : I2CBus) (dbg : Nat) (es : List (Nat × Nat)) :
    ∀ st : S5K3L6, sameCore (s5k3l6xx_submit_regstable bus dbg st es) st := by
  induction es with
  | nil => intro st; exact sameCore_refl st
  | cons e rest ih =>
    intro st
    unfold s5k3l6xx_submit_regstable
    refine sameCore_trans (ih _) ?_
    refine sameCore_trans (i2c_write_sameCore bus _ e.1 e.2) ?_
    split
    · exact i2c_read_sameCore bus st e.1
    · exact sameCore_refl st

theorem hw_set_config_sameCore (bus : I2CBus) (dbg : Nat) (st : S5K3L6) :
    sameCore (s5k3l6xx_hw_set_config bus dbg st) st := by
  unfold s5k3l6xx_hw_set_config s5k3l6xx_write
  refine sameCore_trans (submit_regstable_sameCore bus dbg _ _) ?_
  refine sameCore_trans (i2c_write_sameCore bus _ _ _) ?_
  exact sameCore_trans (submit_regs_sameCore bus setstream _) (submit_regs_sameCore bus _ st)

theorem hw_set_stream_sameCore (bus : I2CBus) (st : S5K3L6) (en : Bool) :
    sameCore (s5k3l6xx_hw_set_stream bus st en) st := by
  unfold s5k3l6xx_hw_set_stream
  exact i2c_write_sameCore bus st _ _

/-! ## Error-free trace equations -/

theorem busOkFrom_mono {bus : I2CBus} {n m : Nat} (h : busOkFrom bus n) (hm : n ≤ m) :
    busOkFrom bus m := fun i hi => h i (le_trans hm hi)

theorem i2c_write_ok (bus : I2CBus) (st : S5K3L6) (a v : Nat)
    (he : st.error = 0) (h : busOkFrom bus st.txns.length) :
    s5k3l6xx_i2c_write bus st a v =
      { st with txns := st.txns ++ [Txn.write1 a v, Txn.read a] } := by
  have h1 : bus.ok st.txns.length = true := h _ le_rfl
  have h2 : bus.ok (st.txns.length + 1) = true := h _ (Nat.le_succ _)
  simp [s5k3l6xx_i2c_write, s5k3l6xx_i2c_read, __s5k3l6xx_i2c_read, he, h1, h2]

theorem i2c_write2_ok (bus : I2CBus) (st : S5K3L6) (a v : Nat)
    (he : st.error = 0) (h : busOkFrom bus st.txns.length) :
    s5k3l6xx_i2c_write2 bus st a v = { st with txns := st.txns ++ [Txn.write2 a v] } := by
  have h1 : bus.ok st.txns.length = true := h _ le_rfl
  simp [s5k3l6xx_i2c_write2, he, h1]

theorem submit_regs_ok (bus : I2CBus) (regs : List s5k3l6xx_reg) :
    ∀ st : S5K3L6, st.error = 0 → busOkFrom bus st.txns.length →
      s5k3l6xx_submit_regs bus st regs = { st with txns := st.txns ++ regTxns regs } := by
  induction regs with
  | nil => intro st he h; simp [s5k3l6xx_submit_regs, regTxns]
  | cons r rest ih =>
    intro st he h
    unfold s5k3l6xx_submit_regs regTxns
    by_cases hs : r.size = 2
    · rw [if_pos hs, if_pos hs, i2c_write2_ok bus st _ _ he h]
      rw [ih _ (by simp [he]) (by simpa using busOkFrom_mono h (by simp))]
      simp
    · rw [if_neg hs, if_neg hs, i2c_write_ok bus st _ _ he h]
      rw [ih _ (by simp [he]) (by simpa using busOkFrom_mono h (by simp))]
      simp

theorem submit_regs_txns (bus : I2CBus) (regs : List s5k3l6xx_reg) (st : S5K3L6)
    (he : st.error = 0) (h : busOkFrom bus st.txns.length) :
    (s5k3l6xx_submit_regs bus st regs).txns = st.txns ++ regTxns regs ∧
    (s5k3l6xx_submit_regs bus st regs).error = 0 := by
  rw [submit_regs_ok bus regs st he h]
  exact ⟨rfl, he⟩

theorem i2c_write_txns (bus : I2CBus) (st : S5K3L6) (a v : Nat)
    (he : st.error = 0) (h : busOkFrom bus st.txns.length) :
    (s5k3l6xx_i2c_write bus st a v).txns = st.txns ++ [Txn.write1 a v, Txn.read a] ∧
    (s5k3l6xx_i2c_write bus st a v).error = 0 := by
  rw [i2c_write_ok bus st a v he h]
  exact ⟨rfl, he⟩

theorem i2c_write2_txns (bus : I2CBus) (st : S5K3L6) (a v : Nat)
    (he : st.error = 0) (h : busOkFrom bus st.txns.length) :
    (s5k3l6xx_i2c_write2 bus st a v).txns = st.txns ++ [Txn.write2 a v] ∧
    (s5k3l6xx_i2c_write2 bus st a v).error = 0 := by
  rw [i2c_write2_ok bus st a v he h]
  exact ⟨rfl, he⟩

theorem submit_regstable_ok (bus : I2CBus) (dbg : Nat) (es : List (Nat × Nat)) :
    ∀ st : S5K3L6, st.error = 0 → busOkFrom bus st.txns.length →
      s5k3l6xx_submit_regstable bus dbg st es =
        { st with txns := st.txns ++ regstableTxns dbg es } := by
  induction es with
  | nil => intro st he h; simp [s5k3l6xx_submit_regstable, regstableTxns]
  | cons e rest ih =>
    intro st he h
    unfold s5k3l6xx_submit_regstable regstableTxns
    by_cases hd : 5 ≤ dbg
    · have h1 : bus.ok st.txns.length = true := h _ le_rfl
      rw [if_pos hd, if_pos hd]
      dsimp only
      have hread : (__s5k3l6xx_i2c_read bus st e.1).2 =
          { st with txns := st.txns ++ [Txn.read e.1] } := by
        simp [__s5k3l6xx_i2c_read, he, h1]
      rw [hread]
      rw [i2c_write_ok bus { st with txns := st.txns ++ [Txn.read e.1] } e.1 e.2
            (by simp [he]) (by intro i hi; refine h i ?_; simp at hi; omega)]
      rw [ih _ (by simp [he]) (by intro i hi; refine h i ?_; simp at hi; omega)]
      simp
    · rw [if_neg hd, if_neg hd]
      dsimp only
      rw [i2c_write_ok bus st e.1 e.2 he h]
      rw [ih _ (by simp [he]) (by intro i hi; refine h i ?_; simp at hi; omega)]
      simp

theorem submit_regstable_txns (bus : I2CBus) (dbg : Nat) (es : List (Nat × Nat))
    (st : S5K3L6) (he : st.error = 0) (h : busOkFrom bus st.txns.length) :
    (s5k3l6xx_submit_regstable bus dbg st es).txns = st.txns ++ regstableTxns dbg es ∧
    (s5k3l6xx_submit_regstable bus dbg st es).error = 0 := by
  rw [submit_regstable_ok bus dbg es st he h]
  exact ⟨rfl, he⟩

theorem hw_set_config_ok (bus : I2CBus) (dbg : Nat) (st : S5K3L6)
    (he : st.error = 0) (h : busOkFrom bus st.txns.length) :
    (s5k3l6xx_hw_set_config bus dbg st).txns = st.txns ++
        (regTxns st.frame_fmt.streamregs ++ regTxns setstream
          ++ [Txn.write1 S5K3L6XX_REG_LANE_MODE (u8cast ((st.nlanes : Int) - 1)),
              Txn.read S5K3L6XX_REG_LANE_MODE]
          ++ regstableTxns dbg st.debug_regs) ∧
    (s5k3l6xx_hw_set_config bus dbg st).error = 0 := by
  obtain ⟨hAt, hAe⟩ := submit_regs_txns bus st.frame_fmt.streamregs st he h
  have hAok : busOkFrom bus
      (s5k3l6xx_submit_regs bus st st.frame_fmt.streamregs).txns.length := by
    rw [hAt]; intro i hi; refine h i ?_; simp at hi; omega
  obtain ⟨hBt, hBe⟩ := submit_regs_txns bus setstream _ hAe hAok
  have hBok : busOkFrom bus
      (s5k3l6xx_submit_regs bus (s5k3l6xx_submit_regs bus st st.frame_fmt.streamregs)
        setstream).txns.length := by
    rw [hBt, hAt]; intro i hi; refine h i ?_; simp at hi; omega
  have hcoreB := sameCore_trans
    (submit_regs_sameCore bus setstream (s5k3l6xx_submit_regs bus st st.frame_fmt.streamregs))
    (submit_regs_sameCore bus st.frame_fmt.streamregs st)
  have hBnl : (s5k3l6xx_submit_regs bus (s5k3l6xx_submit_regs bus st st.frame_fmt.streamregs)
      setstream).nlanes = st.nlanes := hcoreB.2.2.2.2.2.2.1
  have hBdr : (s5k3l6xx_submit_regs bus (s5k3l6xx_submit_regs bus st st.frame_fmt.streamregs)
      setstream).debug_regs = st.debug_regs := hcoreB.2.2.2.2.2.2.2.2.2.1
  unfold s5k3l6xx_hw_set_config s5k3l6xx_write
  dsimp only
  rw [hBnl]
  obtain ⟨hCt, hCe⟩ := i2c_write_txns bus
    (s5k3l6xx_submit_regs bus (s5k3l6xx_submit_regs bus st st.frame_fmt.streamregs) setstream)
    S5K3L6XX_REG_LANE_MODE (u8cast ((st.nlanes : Int) - 1)) hBe hBok
  have hCok : busOkFrom bus
      (s5k3l6xx_i2c_write bus
        (s5k3l6xx_submit_regs bus (s5k3l6xx_submit_regs bus st st.frame_fmt.streamregs) setstream)
        S5K3L6XX_REG_LANE_MODE (u8cast ((st.nlanes : Int) - 1))).txns.length := by
    rw [hCt, hBt, hAt]; intro i hi; refine h i ?_; simp at hi; omega
  have hCdr : (s5k3l6xx_i2c_write bus
      (s5k3l6xx_submit_regs bus (s5k3l6xx_submit_regs bus st st.frame_fmt.streamregs) setstream)
      S5K3L6XX_REG_LANE_MODE (u8cast ((st.nlanes : Int) - 1))).debug_regs = st.debug_regs := by
    have hw := i2c_write_sameCore bus
      (s5k3l6xx_submit_regs bus (s5k3l6xx_submit_regs bus st st.frame_fmt.streamregs) setstream)
      S5K3L6XX_REG_LANE_MODE (u8cast ((st.nlanes : Int) - 1))
    exact hw.2.2.2.2.2.2.2.2.2.1.trans hBdr
  obtain ⟨hDt, hDe⟩ := submit_regstable_txns bus dbg
    (s5k3l6xx_i2c_write bus
      (s5k3l6xx_submit_regs bus (s5k3l6xx_submit_regs bus st st.frame_fmt.streamregs) setstream)
      S5K3L6XX_REG_LANE_MODE (u8cast ((st.nlanes : Int) - 1))).debug_regs
    _ hCe hCok
  refine ⟨?_, hDe⟩
  rw [hDt, hCdr, hCt, hBt, hAt]
  simp

theorem s_stream_start_ok (bus : I2CBus) (dbg : Nat) (setup : S5K3L6 → Int × S5K3L6)
    (pmret : Int) (st st' : S5K3L6)
    (hs : st.streaming = false) (hpm : 0 ≤ pmret)
    (hsetup : setup st = (0, st')) (hstr : st'.streaming = false)
    (he : st'.error = 0) (h : busOkFrom bus st'.txns.length) :
    (s5k3l6xx_s_stream bus dbg setup pmret st true).1 = 0 ∧
    (s5k3l6xx_s_stream bus dbg setup pmret st true).2.txns =
      st'.txns ++ configTxns st'.frame_fmt st'.nlanes dbg st'.debug_regs ∧
    (s5k3l6xx_s_stream bus dbg setup pmret st true).2.streaming = true ∧
    (s5k3l6xx_s_stream bus dbg setup pmret st true).2.error = 0 := by
  have hpm2 : ¬ pmret < 0 := not_lt.mpr hpm
  obtain ⟨hCt, hCe⟩ := hw_set_config_ok bus dbg st' he h
  have hCok : busOkFrom bus (s5k3l6xx_hw_set_config bus dbg st').txns.length := by
    rw [hCt]; intro i hi; refine h i ?_; simp at hi; omega
  have hCs : (s5k3l6xx_hw_set_config bus dbg st').streaming = false :=
    ((hw_set_config_sameCore bus dbg st').1).trans hstr
  obtain ⟨hWt, hWe⟩ := i2c_write_txns bus (s5k3l6xx_hw_set_config bus dbg st')
    S5K3L6XX_REG_MODE_SELECT S5K3L6XX_MODE_STREAMING hCe hCok
  have hWs : (s5k3l6xx_i2c_write bus (s5k3l6xx_hw_set_config bus dbg st')
      S5K3L6XX_REG_MODE_SELECT S5K3L6XX_MODE_STREAMING).streaming = false :=
    ((i2c_write_sameCore bus _ _ _).1).trans hCs
  simp only [s5k3l6xx_s_stream, hs, Bool.false_eq_true, if_false, hpm2, hsetup,
    s5k3l6xx_hw_set_stream, s5k3l6xx_clear_error, if_true]
  simp only [lt_self_iff_false, if_false, hWe, if_pos rfl]
  refine ⟨rfl, ?_, ?_, rfl⟩
  · rw [hWt, hCt]
    unfold configTxns
    simp
  · simpa using hWs

/-! ## Write-trace view lemmas -/

theorem writesOf_append (l1 l2 : List Txn) :
    writesOf (l1 ++ l2) = writesOf l1 ++ writesOf l2 := by
  unfold writesOf
  exact List.filterMap_append l1 l2 _

theorem writesOf_regTxns (regs : List s5k3l6xx_reg) :
    writesOf (regTxns regs) =
      regs.map (fun r => (r.address, if r.size = 2 then r.val else r.val % 256)) := by
  induction regs with
  | nil => rfl
  | cons r rest ih =>
    unfold regTxns
    rw [writesOf_append, ih]
    by_cases hs : r.size = 2 <;> simp [hs, writesOf]

theorem writesOf_regstableTxns (dbg : Nat) (es : List (Nat × Nat)) :
    writesOf (regstableTxns dbg es) = es := by
  induction es with
  | nil => rfl
  | cons e rest ih =>
    unfold regstableTxns
    rw [writesOf_append, ih]
    by_cases hd : 5 ≤ dbg <;> simp [hd, writesOf]

theorem regTxns_length (regs : List s5k3l6xx_reg) :
    (regTxns regs).length =
      regs.length + (regs.filter fun r => r.size ≠ 2).length := by
  induction regs with
  | nil => rfl
  | cons r rest ih =>
    unfold regTxns
    by_cases hs : r.size = 2 <;> simp [hs, ih] <;> omega

theorem lastWriteTo_append_override (ws ov : List (Nat × Nat)) (a v : Nat)
    (h : (ov.filter fun e => e.1 = a).getLast? = some (a, v)) :
    lastWriteTo (ws ++ ov) a = some v := by
  unfold lastWriteTo
  rw [List.filter_append]
  have hne : (ov.filter fun e => e.1 = a) ≠ [] := by
    intro hnil
    rw [hnil] at h
    simp at h
  rw [List.getLast?_append_of_ne_nil _ hne, h]
  rfl

/-! ## Nearest-size and pixel-format lemmas -/

theorem foldl_nearest_mem (w h : Nat) (l : List s5k3l6xx_frame) :
    ∀ a : s5k3l6xx_frame,
      (l.foldl (fun best g => if sizeDist g w h < sizeDist best w h then g else best) a)
        ∈ a :: l := by
  induction l with
  | nil => intro a; simp
  | cons g rest ih =>
    intro a
    rw [List.foldl_cons]
    rcases List.mem_cons.mp (ih (if sizeDist g w h < sizeDist a w h then g else a)) with
      h3 | h3
    · rw [h3]
      by_cases hc : sizeDist g w h < sizeDist a w h
      · rw [if_pos hc]; simp
      · rw [if_neg hc]; simp
    · simp [List.mem_cons_of_mem, h3]

theorem foldl_nearest_min (w h : Nat) (l : List s5k3l6xx_frame) :
    ∀ a : s5k3l6xx_frame, ∀ f ∈ a :: l,
      sizeDist (l.foldl (fun best g => if sizeDist g w h < sizeDist best w h then g else best)
          a) w h ≤ sizeDist f w h := by
  induction l with
  | nil =>
    intro a f hf
    simp at hf
    rw [hf]
    simp
  | cons g rest ih =>
    intro a f hf
    rw [List.foldl_cons]
    have hba : sizeDist (if sizeDist g w h < sizeDist a w h then g else a) w h
        ≤ sizeDist a w h := by
      by_cases hc : sizeDist g w h < sizeDist a w h
      · rw [if_pos hc]; omega
      · rw [if_neg hc]
    have hbg : sizeDist (if sizeDist g w h < sizeDist a w h then g else a) w h
        ≤ sizeDist g w h := by
      by_cases hc : sizeDist g w h < sizeDist a w h
      · rw [if_pos hc]
      · rw [if_neg hc]; omega
    rcases List.mem_cons.mp hf with rfl | hf2
    · exact le_trans (ih _ _ (List.mem_cons_self _ _)) hba
    · rcases List.mem_cons.mp hf2 with rfl | hf3
      · exact le_trans (ih _ _ (List.mem_cons_self _ _)) hbg
      · exact ih _ _ (List.mem_cons_of_mem _ hf3)

theorem find_nearest_mem (w h : Nat) :
    v4l2_find_nearest_size s5k3l6xx_frames w h ∈ s5k3l6xx_frames := by
  unfold v4l2_find_nearest_size s5k3l6xx_frames
  exact foldl_nearest_mem w h _ _

theorem find_nearest_min (w h : Nat) :
    ∀ f ∈ s5k3l6xx_frames,
      sizeDist (v4l2_find_nearest_size s5k3l6xx_frames w h) w h ≤ sizeDist f w h := by
  intro f hf
  unfold v4l2_find_nearest_size s5k3l6xx_frames
  refine foldl_nearest_min w h _ _ f ?_
  simpa [s5k3l6xx_frames] using hf

theorem find_pixfmt_list_no_code (mf : v4l2_mbus_framefmt) :
    ∀ (l : List s5k3l6xx_frame) (i : Nat),
      (∀ f ∈ l, mf.code ≠ f.code) → s5k3l6xx_find_pixfmt_list mf l i = -1 := by
  intro l
  induction l with
  | nil => intro i _; rfl
  | cons f rest ih =>
    intro i hc
    unfold s5k3l6xx_find_pixfmt_list
    have hcf : mf.code ≠ f.code := hc f (List.mem_cons_self _ _)
    have hrest : ∀ g ∈ rest, mf.code ≠ g.code :=
      fun g hg => hc g (List.mem_cons_of_mem _ hg)
    split_ifs with h1 h2
    · exact ih _ hrest
    · exact ih _ hrest
    · exact ih _ hrest

/-! ## Claim theorems -/

/-- C7: while a transport error is latched, every transport read and write is
a no-op that issues no bus transaction (a read returns the default value 0, a
write changes nothing), and `s5k3l6xx_clear_error` atomically returns the
previously latched error and resets the latch, after which a transaction
proceeds again. -/
theorem c7_latched_transport_noop (bus : I2CBus) (st : S5K3L6) (a v : Nat)
    (h : st.error ≠ 0) :
    __s5k3l6xx_i2c_read bus st a = (0, st) ∧
    s5k3l6xx_i2c_write bus st a v = st ∧
    s5k3l6xx_i2c_write2 bus st a v = st ∧
    s5k3l6xx_clear_error st = (st.error, { st with error := 0 }) ∧
    (s5k3l6xx_clear_error st).2.error = 0 ∧
    (bus.ok st.txns.length = true →
      (s5k3l6xx_i2c_write2 bus (s5k3l6xx_clear_error st).2 a v).txns
        = st.txns ++ [Txn.write2 a v]) := by
  refine ⟨?_, ?_, ?_, rfl, rfl, ?_⟩
  · simp [__s5k3l6xx_i2c_read, h]
  · simp [s5k3l6xx_i2c_write, h]
  · simp [s5k3l6xx_i2c_write2, h]
  · intro hok
    simp [s5k3l6xx_clear_error, s5k3l6xx_i2c_write2, hok]

/-- Witness for C7: a concrete device state with error -5 latched. -/
theorem c7_latched_transport_noop_witness :
    ({ st_idle with error := -5 } : S5K3L6).error ≠ 0 ∧
    __s5k3l6xx_i2c_read okBus { st_idle with error := -5 } 0x100
      = (0, { st_idle with error := -5 }) ∧
    s5k3l6xx_i2c_write okBus { st_idle with error := -5 } 0x100 1
      = { st_idle with error := -5 } ∧
    (s5k3l6xx_clear_error { st_idle with error := -5 }).2.error = 0 :=
  have h := c7_latched_transport_noop okBus { st_idle with error := -5 } 0x100 1 (by decide)
  ⟨by decide, h.1, h.2.1, h.2.2.2.2.1⟩

/-- C10: with no latched error on an error-free bus, every 1-byte register
write issues exactly two bus transactions — the write itself followed by a
read-back of the same address (used only for verification: nothing is
latched or returned regardless of the value read back) — while a 2-byte
write issues exactly one; hence a register program issues its entry count
plus its number of 1-byte entries in transactions. -/
theorem c10_write_transaction_shape (bus : I2CBus) (st : S5K3L6)
    (regs : List s5k3l6xx_reg) (a v : Nat)
    (he : st.error = 0) (h : busOkFrom bus st.txns.length) :
    s5k3l6xx_i2c_write bus st a v =
      { st with txns := st.txns ++ [Txn.write1 a v, Txn.read a] } ∧
    (s5k3l6xx_i2c_write bus st a v).error = 0 ∧
    s5k3l6xx_i2c_write2 bus st a v = { st with txns := st.txns ++ [Txn.write2 a v] } ∧
    (s5k3l6xx_submit_regs bus st regs).txns.length =
      st.txns.length + regs.length + (regs.filter fun r => r.size ≠ 2).length := by
  refine ⟨i2c_write_ok bus st a v he h, (i2c_write_txns bus st a v he h).2,
    i2c_write2_ok bus st a v he h, ?_⟩
  rw [(submit_regs_txns bus regs st he h).1]
  simp [regTxns_length]
  omega

/-- Witness for C10: the 1052x780 mode program (13 entries, 3 of them 1-byte)
issues 16 transactions from the idle state on an error-free bus. -/
theorem c10_write_transaction_shape_witness :
    st_idle.error = 0 ∧
    s5k3l6xx_i2c_write okBus st_idle 0x0601 2 =
      { st_idle with txns := st_idle.txns ++ [Txn.write1 0x0601 2, Txn.read 0x0601] } ∧
    (s5k3l6xx_submit_regs okBus st_idle frame_1052x780px_8bit_xfps_2lane).txns.length = 16 :=
  have h := c10_write_transaction_shape okBus st_idle frame_1052x780px_8bit_xfps_2lane
    0x0601 2 rfl (fun _ _ => rfl)
  ⟨rfl, h.1, by rw [h.2.2.2]; decide⟩

/-- C4: on the active (non-try) path, `s5k3l6xx_set_fmt` while streaming
returns -EBUSY and leaves the device state (in particular the active
`frame_fmt`) entirely unchanged; and a negotiation failure in On-Idle returns
-EINVAL, likewise leaving the device state unchanged. -/
theorem c4_set_fmt_guards (st : S5K3L6) (mf : v4l2_mbus_framefmt) :
    (st.streaming = true →
      s5k3l6xx_set_fmt st false mf =
        (-EBUSY, st, { mf with field := V4L2_FIELD_NONE })) ∧
    (st.streaming = false → st.debug_frame = 0 →
      (s5k3l6xx_try_cis_format { mf with field := V4L2_FIELD_NONE }).1 = -1 →
      s5k3l6xx_set_fmt st false mf =
        (-EINVAL, st, (s5k3l6xx_try_cis_format { mf with field := V4L2_FIELD_NONE }).2)) := by
  constructor
  · intro hs
    simp [s5k3l6xx_set_fmt, hs]
  · intro hs hd hneg
    simp [s5k3l6xx_set_fmt, hs, hd, hneg]

/-- Witness for C4: a streaming device rejects a set_fmt with -EBUSY, and an
idle device rejects an unsupported encoding with -EINVAL, both unchanged. -/
theorem c4_set_fmt_guards_witness :
    ({ st_idle with streaming := true } : S5K3L6).streaming = true ∧
    s5k3l6xx_set_fmt { st_idle with streaming := true } false ⟨2000, 1500, 0x3002, 0, 0⟩ =
      (-EBUSY, { st_idle with streaming := true },
        ⟨2000, 1500, 0x3002, 0, V4L2_FIELD_NONE⟩) ∧
    s5k3l6xx_set_fmt st_idle false ⟨2000, 1500, 0x9999, 0, 0⟩ =
      (-EINVAL, st_idle,
        (s5k3l6xx_try_cis_format ⟨2000, 1500, 0x9999, 0, V4L2_FIELD_NONE⟩).2) :=
  ⟨rfl,
   (c4_set_fmt_guards { st_idle with streaming := true } ⟨2000, 1500, 0x3002, 0, 0⟩).1 rfl,
   (c4_set_fmt_guards st_idle ⟨2000, 1500, 0x9999, 0, 0⟩).2 rfl rfl (by decide)⟩

/-- C6: powering off from any powered state (idle or streaming, any latched
error) always reports success, clears the streaming flag, asserts reset,
disables the clock, disables the regulator only when it is active, issues no
bus transaction, and ends with the power count at 0 (state Off). -/
theorem c6_power_off_never_fails (o : PwrOracle) (st : S5K3L6)
    (hp : st.power = 1) (hclk : st.clock_valid = true) :
    (s5k3l6xx_set_power o st false).1 = 0 ∧
    (s5k3l6xx_set_power o st false).2.power = 0 ∧
    (s5k3l6xx_set_power o st false).2.streaming = false ∧
    (s5k3l6xx_set_power o st false).2.reset_asserted = true ∧
    (s5k3l6xx_set_power o st false).2.clk_enabled = false ∧
    (s5k3l6xx_set_power o st false).2.regulator_enabled = false ∧
    (s5k3l6xx_set_power o st false).2.txns = st.txns ∧
    (s5k3l6xx_set_power o st false).2.error = st.error ∧
    (s5k3l6xx_set_power o st false).2.acts =
      st.acts ++ [PwrAct.gpio_assert, PwrAct.clk_disable]
        ++ (if st.regulator_enabled then [PwrAct.reg_disable] else []) := by
  unfold s5k3l6xx_set_power s5k3l6xx_power_off
  rw [hp]
  by_cases hre : st.regulator_enabled <;> simp [hclk, hre]

/-- Witness for C6: powering off a streaming device with a latched error. -/
theorem c6_power_off_never_fails_witness :
    ({ st_idle with streaming := true, error := -5 } : S5K3L6).power = 1 ∧
    (s5k3l6xx_set_power okPwr { st_idle with streaming := true, error := -5 } false).1 = 0 ∧
    (s5k3l6xx_set_power okPwr { st_idle with streaming := true, error := -5 } false).2.power
      = 0 ∧
    (s5k3l6xx_set_power okPwr { st_idle with streaming := true, error := -5 }
      false).2.streaming = false :=
  have h := c6_power_off_never_fails okPwr
    { st_idle with streaming := true, error := -5 } rfl rfl
  ⟨rfl, h.1, h.2.1, h.2.2.1⟩

/-- C5: re-entrant state-machine transitions are idempotent no-ops:
`s5k3l6xx_s_stream` with the streaming flag already equal to the request, and
`s5k3l6xx_set_power` with the power count already at the target, return 0
immediately with the state (including the bus-transaction trace)
unchanged; consequently two consecutive successful start_streaming calls
both end On-Streaming and the second issues no bus transaction. -/
theorem c5_reentrant_noop (bus : I2CBus) (dbg : Nat) (setup : S5K3L6 → Int × S5K3L6)
    (pmret : Int) (o : PwrOracle)
    (hset : ∀ s, ((setup s).2).streaming = s.streaming) :
    (∀ (st : S5K3L6) (r : Bool), st.streaming = r →
      s5k3l6xx_s_stream bus dbg setup pmret st r = (0, st)) ∧
    (∀ st : S5K3L6, st.power ≠ 0 → s5k3l6xx_set_power o st true = (0, st)) ∧
    (∀ st : S5K3L6, st.power ≠ 1 → s5k3l6xx_set_power o st false = (0, st)) ∧
    (∀ st st1 : S5K3L6, st.streaming = false →
      s5k3l6xx_s_stream bus dbg setup pmret st true = (0, st1) →
      st1.streaming = true ∧ s5k3l6xx_s_stream bus dbg setup pmret st1 true = (0, st1)) := by
  have noop : ∀ (st : S5K3L6) (r : Bool), st.streaming = r →
      s5k3l6xx_s_stream bus dbg setup pmret st r = (0, st) := by
    intro st r hr
    simp [s5k3l6xx_s_stream, hr]
  refine ⟨noop, ?_, ?_, ?_⟩
  · intro st hp
    simp [s5k3l6xx_set_power, hp]
  · intro st hp
    simp [s5k3l6xx_set_power, hp]
  · intro st st1 hs hrun
    have hstr1 : st1.streaming = true := by
      by_cases hpm : pmret < 0
      · simp [s5k3l6xx_s_stream, hs, hpm] at hrun
        obtain ⟨h1, -⟩ := hrun
        omega
      · rcases hsu : setup st with ⟨r, s2⟩
        have hs2 : s2.streaming = false := by
          have hx := hset st
          rw [hsu] at hx
          simpa [hs] using hx
        by_cases hr : r < 0
        · simp [s5k3l6xx_s_stream, hs, hpm, hsu, hr] at hrun
          obtain ⟨h1, -⟩ := hrun
          omega
        · have hW : (s5k3l6xx_hw_set_stream bus (s5k3l6xx_hw_set_config bus dbg s2)
              true).streaming = false :=
            ((hw_set_stream_sameCore bus _ true).1).trans
              (((hw_set_config_sameCore bus dbg s2).1).trans hs2)
          by_cases hq : (s5k3l6xx_hw_set_stream bus (s5k3l6xx_hw_set_config bus dbg s2)
              true).error = 0
          · simp [s5k3l6xx_s_stream, hs, hpm, hsu, hr, s5k3l6xx_clear_error, hq] at hrun
            rw [← hrun]
            simp [hW]
          · simp [s5k3l6xx_s_stream, hs, hpm, hsu, hr, s5k3l6xx_clear_error, hq] at hrun
    exact ⟨hstr1, noop st1 true hstr1⟩

/-- Witness for C5: a second start on an already-streaming device and a
power-on request on an already-powered device are exact no-ops. -/
theorem c5_reentrant_noop_witness :
    (∀ s : S5K3L6, ((idSetup s).2).streaming = s.streaming) ∧
    ({ st_idle with streaming := true } : S5K3L6).streaming = true ∧
    s5k3l6xx_s_stream okBus 0 idSetup 0 { st_idle with streaming := true } true
      = (0, { st_idle with streaming := true }) ∧
    st_idle.power ≠ 0 ∧
    s5k3l6xx_set_power okPwr st_idle true = (0, st_idle) :=
  have h := c5_reentrant_noop okBus 0 idSetup 0 okPwr (fun _ => rfl)
  ⟨fun _ => rfl, rfl, h.1 _ true rfl, by decide, h.2.1 st_idle (by decide)⟩

/-- C2 counterexample: on a bus whose every transfer fails with -5, a
start_streaming call from On-Idle drains and returns the error -5, but the
streaming flag stays clear and the stream-enable write to register 0x100 is
never issued (the hardware is not left stream-enabled): the transition does
not complete, contrary to the claim. -/
theorem c2_error_transition_counterexample :
    (s5k3l6xx_s_stream badBus 0 idSetup 0 st_idle true).1 = -5 ∧
    (s5k3l6xx_s_stream badBus 0 idSetup 0 st_idle true).2.streaming = false ∧
    (s5k3l6xx_s_stream badBus 0 idSetup 0 st_idle true).2.txns
      = [Txn.write2 0x0136 0x1900] ∧
    Txn.write1 S5K3L6XX_REG_MODE_SELECT S5K3L6XX_MODE_STREAMING
      ∉ (s5k3l6xx_s_stream badBus 0 idSetup 0 st_idle true).2.txns := by
  decide

/-- C2 amended: when a transport error is latched during the
register-program sequence, start_streaming drains the sticky error (the
latch is reset) and returns it to the caller, but the transition to
On-Streaming completes only on success: the streaming flag is set exactly
when the drained error is zero, and remains clear otherwise. -/
theorem c2_error_drained_flag (bus : I2CBus) (dbg : Nat)
    (setup : S5K3L6 → Int × S5K3L6) (pmret : Int) (st st' : S5K3L6)
    (hs : st.streaming = false) (hpm : 0 ≤ pmret)
    (hsetup : setup st = (0, st')) (hstr : st'.streaming = false) :
    (s5k3l6xx_s_stream bus dbg setup pmret st true).1 =
      (s5k3l6xx_hw_set_stream bus (s5k3l6xx_hw_set_config bus dbg st') true).error ∧
    (s5k3l6xx_s_stream bus dbg setup pmret st true).2.error = 0 ∧
    ((s5k3l6xx_s_stream bus dbg setup pmret st true).1 = 0 ↔
      (s5k3l6xx_s_stream bus dbg setup pmret st true).2.streaming = true) := by
  have hpm2 : ¬ pmret < 0 := not_lt.mpr hpm
  have hW : (s5k3l6xx_hw_set_stream bus (s5k3l6xx_hw_set_config bus dbg st')
      true).streaming = false :=
    ((hw_set_stream_sameCore bus _ true).1).trans
      (((hw_set_config_sameCore bus dbg st').1).trans hstr)
  by_cases hq : (s5k3l6xx_hw_set_stream bus (s5k3l6xx_hw_set_config bus dbg st')
      true).error = 0
  · simp [s5k3l6xx_s_stream, hs, hpm2, hsetup, s5k3l6xx_clear_error, hq, hW]
  · simp [s5k3l6xx_s_stream, hs, hpm2, hsetup, s5k3l6xx_clear_error, hq, hW]

/-- Witness for C2 amended, at the concrete failing bus of the
counterexample. -/
theorem c2_error_drained_flag_witness :
    st_idle.streaming = false ∧ ((0 : Int) ≤ 0) ∧ idSetup st_idle = (0, st_idle) ∧
    (s5k3l6xx_s_stream badBus 0 idSetup 0 st_idle true).1 =
      (s5k3l6xx_hw_set_stream badBus (s5k3l6xx_hw_set_config badBus 0 st_idle) true).error ∧
    (s5k3l6xx_s_stream badBus 0 idSetup 0 st_idle true).2.error = 0 ∧
    ((s5k3l6xx_s_stream badBus 0 idSetup 0 st_idle true).1 = 0 ↔
      (s5k3l6xx_s_stream badBus 0 idSetup 0 st_idle true).2.streaming = true) :=
  have h := c2_error_drained_flag badBus 0 idSetup 0 st_idle st_idle rfl le_rfl rfl rfl
  ⟨rfl, le_rfl, rfl, h.1, h.2.1, h.2.2⟩

/-- C9 counterexample: the catalog's entry 0 is the 1052x780 mode carrying
the shared GRBG encoding, yet no frame-size enumeration query with that
encoding ever reports it: every successful query reports 4208x3120, so not
every catalog mode is reachable through enumeration, contrary to the
claim. -/
theorem c9_enum_counterexample :
    (s5k3l6xx_frames.getD 0 s5k3l6xx_frame_debug).width = 1052 ∧
    (s5k3l6xx_frames.getD 0 s5k3l6xx_frame_debug).code = MEDIA_BUS_FMT_SGRBG8_1X8 ∧
    (∀ (i : Nat) (f : v4l2_frame_size_enum),
      s5k3l6xx_enum_frame_size i MEDIA_BUS_FMT_SGRBG8_1X8 = Except.ok f →
      f.min_width = 4208 ∧ f.min_height = 3120) := by
  refine ⟨by decide, by decide, ?_⟩
  intro i f hf
  cases i with
  | zero =>
    have h0 : s5k3l6xx_enum_frame_size 0 MEDIA_BUS_FMT_SGRBG8_1X8 =
        Except.ok { code := MEDIA_BUS_FMT_SGRBG8_1X8, min_width := 4208, max_width := 4208,
                    min_height := 3120, max_height := 3120 } := rfl
    rw [h0] at hf
    have h2 := Except.ok.inj hf
    rw [← h2]
    exact ⟨rfl, rfl⟩
  | succ n =>
    simp [s5k3l6xx_enum_frame_size] at hf

/-- C9 amended: the frame-size enumeration accepts only index 0 and rejects
every index of 1 or more — including indices still inside the catalog — with
-EINVAL; for index 0 it scans the catalog downwards from the highest index
and reports, as both minimum and maximum, the size of the first entry at
index 1 or above whose encoding matches (for the shared GRBG code this is
always entry 2, 4208x3120), falling back to entry 0 without checking its
encoding when nothing matched. -/
theorem c9_enum_frame_size_behavior :
    s5k3l6xx_enum_frame_size 0 MEDIA_BUS_FMT_SGRBG8_1X8 =
      Except.ok { code := MEDIA_BUS_FMT_SGRBG8_1X8, min_width := 4208, max_width := 4208,
                  min_height := 3120, max_height := 3120 } ∧
    (∀ (i : Nat) (c : Nat),
      s5k3l6xx_enum_frame_size (i + 1) c = Except.error (-EINVAL)) ∧
    (∀ c : Nat, c ≠ MEDIA_BUS_FMT_SGRBG8_1X8 →
      s5k3l6xx_enum_frame_size 0 c =
        Except.ok { code := MEDIA_BUS_FMT_SGRBG8_1X8, min_width := 1052, max_width := 1052,
                    min_height := 780, max_height := 780 }) := by
  refine ⟨rfl, ?_, ?_⟩
  · intro i c
    simp [s5k3l6xx_enum_frame_size]
  · intro c hc
    have hne2 : ¬ ((s5k3l6xx_frames.getD 2 s5k3l6xx_frame_debug).code = c) :=
      fun hh => hc hh.symm
    have hne1 : ¬ ((s5k3l6xx_frames.getD 1 s5k3l6xx_frame_debug).code = c) :=
      fun hh => hc hh.symm
    have hdown : s5k3l6xx_enum_down c (s5k3l6xx_frames.length - 1) = 0 := by
      show s5k3l6xx_enum_down c 2 = 0
      simp only [s5k3l6xx_enum_down, hne2, hne1, if_false]
    unfold s5k3l6xx_enum_frame_size
    rw [if_neg (by omega)]
    simp only [hdown]
    rfl

/-- C8 counterexample: with a non-solid test pattern selected, a red
color-component control write still issues the 2-byte hardware write of the
component value to register 0x0602 (and returns success): component values
are not buffered until solid-color mode is selected, contrary to the
claim. -/
theorem c8_component_write_counterexample :
    st_idle.apply_test_solid = false ∧
    (s5k3l6xx_s_ctrl okBus st_idle CtrlId.test_pattern_red 512).1 = 0 ∧
    (s5k3l6xx_s_ctrl okBus st_idle CtrlId.test_pattern_red 512).2.txns =
      [Txn.write2 S5K3L6XX_REG_TEST_DATA_RED 512] := by
  decide

theorem componentArm_facts (bus : I2CBus) (st : S5K3L6) (reg : Nat) (v : Int)
    (he : st.error = 0) (h : busOkFrom bus st.txns.length) :
    (componentArm bus st reg v).error = 0 ∧
    (componentArm bus st reg v).txns =
      st.txns ++ [Txn.write2 reg (u16cast v &&& 0x3ff)]
        ++ (if st.apply_test_solid then
              [Txn.write1 S5K3L6XX_REG_TEST_PATTERN_MODE S5K3L6XX_TEST_PATTERN_SOLID_COLOR,
               Txn.read S5K3L6XX_REG_TEST_PATTERN_MODE]
            else []) ∧
    (componentArm bus st reg v).apply_test_solid = st.apply_test_solid := by
  obtain ⟨hWt, hWe⟩ := i2c_write2_txns bus st reg (u16cast v &&& 0x3ff) he h
  have hsolid : (s5k3l6xx_i2c_write2 bus st reg (u16cast v &&& 0x3ff)).apply_test_solid
      = st.apply_test_solid := (i2c_write2_sameCore bus st reg _).2.2.2.2.1
  unfold componentArm s5k3l6xx_hw_set_test_pattern s5k3l6xx_write
  dsimp only
  rw [hsolid]
  cases hb : st.apply_test_solid
  · simp only [Bool.false_eq_true, if_false]
    exact ⟨hWe, by rw [hWt]; simp, hsolid.trans hb⟩
  · simp only [if_true]
    have hWok : busOkFrom bus
        (s5k3l6xx_i2c_write2 bus st reg (u16cast v &&& 0x3ff)).txns.length := by
      intro i hi
      rw [hWt] at hi
      simp at hi
      exact h i (by omega)
    obtain ⟨hXt, hXe⟩ := i2c_write_txns bus
      (s5k3l6xx_i2c_write2 bus st reg (u16cast v &&& 0x3ff))
      S5K3L6XX_REG_TEST_PATTERN_MODE S5K3L6XX_TEST_PATTERN_SOLID_COLOR hWe hWok
    refine ⟨hXe, ?_, ?_⟩
    · rw [hXt, hWt]
    · exact ((i2c_write_sameCore bus _ _ _).2.2.2.2.1).trans (hsolid.trans hb)

/-- C8 amended: test-pattern color-component control writes are not
buffered: whenever the device is powered, a component write immediately
issues the 2-byte hardware write of the (10-bit masked) component value to
its component register and returns success; when the solid-color pattern is
currently selected it additionally re-writes the test-pattern mode register
with the solid-color value afterwards, and with any other pattern selected
it issues only the component write; selecting a test pattern records whether
it is the solid-color one. -/
theorem c8_component_writes_immediate (bus : I2CBus) (st : S5K3L6) (id : CtrlId)
    (reg : Nat) (v : Int)
    (hp : st.power ≠ 0) (he : st.error = 0) (h : busOkFrom bus st.txns.length)
    (hid : componentReg id = some reg) :
    (s5k3l6xx_s_ctrl bus st id v).1 = 0 ∧
    (s5k3l6xx_s_ctrl bus st id v).2.apply_test_solid = st.apply_test_solid ∧
    (s5k3l6xx_s_ctrl bus st id v).2.txns =
      st.txns ++ [Txn.write2 reg (u16cast v &&& 0x3ff)]
        ++ (if st.apply_test_solid then
              [Txn.write1 S5K3L6XX_REG_TEST_PATTERN_MODE S5K3L6XX_TEST_PATTERN_SOLID_COLOR,
               Txn.read S5K3L6XX_REG_TEST_PATTERN_MODE]
            else []) ∧
    (∀ pv : Int, (s5k3l6xx_s_ctrl bus st CtrlId.test_pattern pv).2.apply_test_solid
        = decide (pv = (S5K3L6XX_TEST_PATTERN_SOLID_COLOR : Int))) := by
  have hsel : ∀ pv : Int, (s5k3l6xx_s_ctrl bus st CtrlId.test_pattern pv).2.apply_test_solid
      = decide (pv = (S5K3L6XX_TEST_PATTERN_SOLID_COLOR : Int)) := by
    intro pv
    unfold s5k3l6xx_s_ctrl
    rw [if_neg hp]
    dsimp only
    unfold s5k3l6xx_hw_set_test_pattern s5k3l6xx_write s5k3l6xx_clear_error
    have hc := (i2c_write_sameCore bus
      { st with apply_test_solid := decide (pv = (S5K3L6XX_TEST_PATTERN_SOLID_COLOR : Int)) }
      S5K3L6XX_REG_TEST_PATTERN_MODE (u8cast pv)).2.2.2.2.1
    simpa using hc
  cases id with
  | analogue_gain => exact absurd hid (by simp [componentReg])
  | digital_gain => exact absurd hid (by simp [componentReg])
  | exposure => exact absurd hid (by simp [componentReg])
  | test_pattern => exact absurd hid (by simp [componentReg])
  | other => exact absurd hid (by simp [componentReg])
  | test_pattern_red =>
    obtain rfl := Option.some.inj hid
    obtain ⟨harmErr, harmTxns, harmSolid⟩ :=
      componentArm_facts bus st S5K3L6XX_REG_TEST_DATA_RED v he h
    unfold s5k3l6xx_s_ctrl
    rw [if_neg hp]
    dsimp only
    unfold s5k3l6xx_clear_error
    exact ⟨harmErr, harmSolid, harmTxns, hsel⟩
  | test_pattern_greenr =>
    obtain rfl := Option.some.inj hid
    obtain ⟨harmErr, harmTxns, harmSolid⟩ :=
      componentArm_facts bus st S5K3L6XX_REG_TEST_DATA_GREENR v he h
    unfold s5k3l6xx_s_ctrl
    rw [if_neg hp]
    dsimp only
    unfold s5k3l6xx_clear_error
    exact ⟨harmErr, harmSolid, harmTxns, hsel⟩
  | test_pattern_blue =>
    obtain rfl := Option.some.inj hid
    obtain ⟨harmErr, harmTxns, harmSolid⟩ :=
      componentArm_facts bus st S5K3L6XX_REG_TEST_DATA_BLUE v he h
    unfold s5k3l6xx_s_ctrl
    rw [if_neg hp]
    dsimp only
    unfold s5k3l6xx_clear_error
    exact ⟨harmErr, harmSolid, harmTxns, hsel⟩
  | test_pattern_greenb =>
    obtain rfl := Option.some.inj hid
    obtain ⟨harmErr, harmTxns, harmSolid⟩ :=
      componentArm_facts bus st S5K3L6XX_REG_TEST_DATA_GREENB v he h
    unfold s5k3l6xx_s_ctrl
    rw [if_neg hp]
    dsimp only
    unfold s5k3l6xx_clear_error
    exact ⟨harmErr, harmSolid, harmTxns, hsel⟩

/-- Witness for C8 amended: a red component write on a powered device with
solid color active pushes the component value and then the mode register. -/
theorem c8_component_writes_immediate_witness :
    ({ st_idle with apply_test_solid := true } : S5K3L6).power ≠ 0 ∧
    componentReg CtrlId.test_pattern_red = some S5K3L6XX_REG_TEST_DATA_RED ∧
    (s5k3l6xx_s_ctrl okBus { st_idle with apply_test_solid := true }
      CtrlId.test_pattern_red 512).1 = 0 ∧
    (s5k3l6xx_s_ctrl okBus { st_idle with apply_test_solid := true }
      CtrlId.test_pattern_red 512).2.txns =
      ({ st_idle with apply_test_solid := true } : S5K3L6).txns
        ++ [Txn.write2 S5K3L6XX_REG_TEST_DATA_RED (u16cast 512 &&& 0x3ff)]
        ++ (if ({ st_idle with apply_test_solid := true } : S5K3L6).apply_test_solid then
              [Txn.write1 S5K3L6XX_REG_TEST_PATTERN_MODE S5K3L6XX_TEST_PATTERN_SOLID_COLOR,
               Txn.read S5K3L6XX_REG_TEST_PATTERN_MODE]
            else []) :=
  have h := c8_component_writes_immediate okBus { st_idle with apply_test_solid := true }
    CtrlId.test_pattern_red S5K3L6XX_REG_TEST_DATA_RED 512 (by decide) rfl
    (fun _ _ => rfl) rfl
  ⟨by decide, rfl, h.1, h.2.2.1⟩

theorem try_cis_success (mf : v4l2_mbus_framefmt)
    (hcs : mf.colorspace = V4L2_COLORSPACE_DEFAULT ∨ mf.colorspace = V4L2_COLORSPACE_RAW)
    (hcode : mf.code = MEDIA_BUS_FMT_SGRBG8_1X8) :
    0 ≤ (s5k3l6xx_try_cis_format mf).1 ∧
    (s5k3l6xx_frames.getD (s5k3l6xx_try_cis_format mf).1.toNat s5k3l6xx_frame_debug)
      = v4l2_find_nearest_size s5k3l6xx_frames mf.width mf.height ∧
    (s5k3l6xx_try_cis_format mf).2.code = mf.code ∧
    (s5k3l6xx_try_cis_format mf).2.colorspace = V4L2_COLORSPACE_RAW := by
  have hm := find_nearest_mem mf.width mf.height
  rcases List.mem_cons.mp hm with hm | hm
  · have hfp : s5k3l6xx_find_pixfmt
        { mf with width := (v4l2_find_nearest_size s5k3l6xx_frames mf.width mf.height).width,
                  height := (v4l2_find_nearest_size s5k3l6xx_frames mf.width mf.height).height }
        = 0 := by
      rw [hm]
      rcases hcs with hcs | hcs <;>
        simp [s5k3l6xx_find_pixfmt, s5k3l6xx_find_pixfmt_list, s5k3l6xx_frames, hcs, hcode,
          V4L2_COLORSPACE_DEFAULT, V4L2_COLORSPACE_RAW, MEDIA_BUS_FMT_SGRBG8_1X8]
    unfold s5k3l6xx_try_cis_format
    dsimp only
    rw [hfp]
    rw [if_neg (by omega : ¬ ((0 : Int) < 0))]
    refine ⟨by omega, ?_, ?_, rfl⟩
    · rw [hm]; rfl
    · rw [hcode]; rfl
  · rcases List.mem_cons.mp hm with hm | hm
    · have hfp : s5k3l6xx_find_pixfmt
          { mf with width := (v4l2_find_nearest_size s5k3l6xx_frames mf.width mf.height).width,
                    height := (v4l2_find_nearest_size s5k3l6xx_frames mf.width mf.height).height }
          = 1 := by
        rw [hm]
        rcases hcs with hcs | hcs <;>
          simp [s5k3l6xx_find_pixfmt, s5k3l6xx_find_pixfmt_list, s5k3l6xx_frames, hcs, hcode,
            V4L2_COLORSPACE_DEFAULT, V4L2_COLORSPACE_RAW, MEDIA_BUS_FMT_SGRBG8_1X8]
      unfold s5k3l6xx_try_cis_format
      dsimp only
      rw [hfp]
      rw [if_neg (by omega : ¬ ((1 : Int) < 0))]
      refine ⟨by omega, ?_, ?_, rfl⟩
      · rw [hm]; rfl
      · rw [hcode]; rfl
    · rcases List.mem_cons.mp hm with hm | hm
      · have hfp : s5k3l6xx_find_pixfmt
            { mf with width := (v4l2_find_nearest_size s5k3l6xx_frames mf.width mf.height).width,
                      height := (v4l2_find_nearest_size s5k3l6xx_frames mf.width
                        mf.height).height }
            = 2 := by
          rw [hm]
          rcases hcs with hcs | hcs <;>
            simp [s5k3l6xx_find_pixfmt, s5k3l6xx_find_pixfmt_list, s5k3l6xx_frames, hcs, hcode,
              V4L2_COLORSPACE_DEFAULT, V4L2_COLORSPACE_RAW, MEDIA_BUS_FMT_SGRBG8_1X8]
        unfold s5k3l6xx_try_cis_format
        dsimp only
        rw [hfp]
        rw [if_neg (by omega : ¬ ((2 : Int) < 0))]
        refine ⟨by omega, ?_, ?_, rfl⟩
        · rw [hm]; rfl
        · rw [hcode]; rfl
      · exact absurd hm (List.not_mem_nil _)

theorem try_cis_not_found (mf : v4l2_mbus_framefmt)
    (hc : mf.code ∉ s5k3l6xx_frames.map s5k3l6xx_frame.code) :
    (s5k3l6xx_try_cis_format mf).1 = -1 := by
  have hfp : s5k3l6xx_find_pixfmt
      { mf with width := (v4l2_find_nearest_size s5k3l6xx_frames mf.width mf.height).width,
                height := (v4l2_find_nearest_size s5k3l6xx_frames mf.width mf.height).height }
      = -1 := by
    apply find_pixfmt_list_no_code
    intro f hf hEq
    exact hc (by rw [hEq]; exact List.mem_map_of_mem _ hf)
  unfold s5k3l6xx_try_cis_format
  dsimp only
  rw [hfp]
  rw [if_pos (by omega : ((-1 : Int) < 0))]

/-- C3: format negotiation first picks the catalog entry whose size is
nearest to the request independently of encoding (the chosen entry is in the
catalog and minimizes the size distance), then verifies that candidate's
encoding against the request: with the shared catalog encoding the
negotiation succeeds, returning exactly the nearest entry's catalog index
and normalizing the format to it, and with an encoding carried by no catalog
entry it fails with the not-found result -1 (mapped to unsupported-format by
set_fmt); in particular the exact request (4208,3120,GRBG8) yields index 2
and the request (2000,1500,GRBG8) yields index 1, the 2104x1560 entry. -/
theorem c3_format_negotiation :
    (∀ mf : v4l2_mbus_framefmt,
      (mf.colorspace = V4L2_COLORSPACE_DEFAULT ∨ mf.colorspace = V4L2_COLORSPACE_RAW) →
      (v4l2_find_nearest_size s5k3l6xx_frames mf.width mf.height ∈ s5k3l6xx_frames) ∧
      (∀ f ∈ s5k3l6xx_frames,
        sizeDist (v4l2_find_nearest_size s5k3l6xx_frames mf.width mf.height)
            mf.width mf.height ≤ sizeDist f mf.width mf.height) ∧
      (mf.code = MEDIA_BUS_FMT_SGRBG8_1X8 →
        0 ≤ (s5k3l6xx_try_cis_format mf).1 ∧
        (s5k3l6xx_frames.getD (s5k3l6xx_try_cis_format mf).1.toNat s5k3l6xx_frame_debug)
          = v4l2_find_nearest_size s5k3l6xx_frames mf.width mf.height ∧
        (s5k3l6xx_try_cis_format mf).2.code = mf.code ∧
        (s5k3l6xx_try_cis_format mf).2.colorspace = V4L2_COLORSPACE_RAW) ∧
      (mf.code ∉ s5k3l6xx_frames.map s5k3l6xx_frame.code →
        (s5k3l6xx_try_cis_format mf).1 = -1)) ∧
    (s5k3l6xx_try_cis_format ⟨4208, 3120, MEDIA_BUS_FMT_SGRBG8_1X8, 0, 1⟩).1 = 2 ∧
    (s5k3l6xx_try_cis_format ⟨2000, 1500, MEDIA_BUS_FMT_SGRBG8_1X8, 0, 1⟩).1 = 1 := by
  refine ⟨?_, by decide, by decide⟩
  intro mf hcs
  exact ⟨find_nearest_mem mf.width mf.height, find_nearest_min mf.width mf.height,
    try_cis_success mf hcs, try_cis_not_found mf⟩

/-- Witness for C3 at the concrete request (2000,1500,GRBG8) with the
default colorspace. -/
theorem c3_format_negotiation_witness :
    ((⟨2000, 1500, MEDIA_BUS_FMT_SGRBG8_1X8, 0, 1⟩ : v4l2_mbus_framefmt).colorspace
        = V4L2_COLORSPACE_DEFAULT ∨
     (⟨2000, 1500, MEDIA_BUS_FMT_SGRBG8_1X8, 0, 1⟩ : v4l2_mbus_framefmt).colorspace
        = V4L2_COLORSPACE_RAW) ∧
    (v4l2_find_nearest_size s5k3l6xx_frames 2000 1500 ∈ s5k3l6xx_frames) ∧
    (s5k3l6xx_try_cis_format ⟨2000, 1500, MEDIA_BUS_FMT_SGRBG8_1X8, 0, 1⟩).1 = 1 :=
  have h := c3_format_negotiation
  have h2 := h.1 ⟨2000, 1500, MEDIA_BUS_FMT_SGRBG8_1X8, 0, 1⟩ (Or.inl rfl)
  ⟨Or.inl rfl, h2.1, h.2.2⟩

/-- C1 amended: from On-Idle on an error-free bus, start_streaming issues
its register writes in exactly this order — the active mode's program in
table order, then the fixed post-mode registers (data format, the 0x307a
noise-reduction register, the lane count), then the debug overrides in
insertion order, then the stream-enable write to register 0x100 — and for
any override (addr, val) that is the last entry in the table with its
address, the last value written to addr before stream-enable is val. -/
theorem c1_config_write_order (bus : I2CBus) (dbg : Nat)
    (setup : S5K3L6 → Int × S5K3L6) (pmret : Int) (st st' : S5K3L6)
    (hs : st.streaming = false) (hpm : 0 ≤ pmret)
    (hsetup : setup st = (0, st')) (hstr : st'.streaming = false)
    (he : st'.error = 0) (h : busOkFrom bus st'.txns.length) :
    (s5k3l6xx_s_stream bus dbg setup pmret st true).1 = 0 ∧
    (s5k3l6xx_s_stream bus dbg setup pmret st true).2.streaming = true ∧
    writesOf ((s5k3l6xx_s_stream bus dbg setup pmret st true).2.txns.drop
        st'.txns.length)
      = modeWrites st'.frame_fmt ++ postModeWrites st'.nlanes ++ st'.debug_regs
          ++ [(S5K3L6XX_REG_MODE_SELECT, S5K3L6XX_MODE_STREAMING)] ∧
    (∀ a v : Nat,
      ((st'.debug_regs.filter fun e => e.1 = a).getLast? = some (a, v)) →
      lastWriteTo (modeWrites st'.frame_fmt ++ postModeWrites st'.nlanes
          ++ st'.debug_regs) a = some v) := by
  obtain ⟨h1, h2, h3, h4⟩ :=
    s_stream_start_ok bus dbg setup pmret st st' hs hpm hsetup hstr he h
  refine ⟨h1, h3, ?_, ?_⟩
  · rw [h2, List.drop_left]
    unfold configTxns
    rw [writesOf_append, writesOf_append, writesOf_append, writesOf_append,
      writesOf_regTxns, writesOf_regTxns, writesOf_regstableTxns]
    unfold modeWrites postModeWrites setstream writesOf
    simp [S5K3L6XX_REG_DATA_FORMAT, S5K3L6XX_DATA_FORMAT_RAW8]
  · intro a v hv
    exact lastWriteTo_append_override _ _ a v hv

/-- C1 counterexample: with the 2104x1560 mode active (its program writes
register 0x3403) and the override table holding (0x3403, 0x42) followed by
(0x3403, 0x43), the claim's premises hold for the override (0x3403, 0x42),
yet the last value written to 0x3403 before the stream-enable write is 0x43,
not 0x42: with duplicate overrides only the last insertion wins. -/
theorem c1_duplicate_override_counterexample :
    ((0x3403, 0x42) ∈ st_c1.debug_regs) ∧
    (0x3403 ∈ (modeWrites st_c1.frame_fmt).map Prod.fst) ∧
    (s5k3l6xx_s_stream okBus 0 idSetup 0 st_c1 true).1 = 0 ∧
    (writesOf (s5k3l6xx_s_stream okBus 0 idSetup 0 st_c1 true).2.txns).getLast?
      = some (S5K3L6XX_REG_MODE_SELECT, S5K3L6XX_MODE_STREAMING) ∧
    lastWriteTo (writesOf
        ((s5k3l6xx_s_stream okBus 0 idSetup 0 st_c1 true).2.txns).dropLast) 0x3403
      = some 0x43 ∧
    (0x43 : Nat) ≠ 0x42 := by
  decide

/-- Witness for C1 at the concrete single-override state: the override
(0x3403, 0x42) is the final value at 0x3403. -/
theorem c1_config_write_order_witness :
    st_c1w.streaming = false ∧ idSetup st_c1w = (0, st_c1w) ∧ st_c1w.error = 0 ∧
    (s5k3l6xx_s_stream okBus 0 idSetup 0 st_c1w true).1 = 0 ∧
    (s5k3l6xx_s_stream okBus 0 idSetup 0 st_c1w true).2.streaming = true ∧
    writesOf ((s5k3l6xx_s_stream okBus 0 idSetup 0 st_c1w true).2.txns.drop
        st_c1w.txns.length)
      = modeWrites st_c1w.frame_fmt ++ postModeWrites st_c1w.nlanes ++ st_c1w.debug_regs
          ++ [(S5K3L6XX_REG_MODE_SELECT, S5K3L6XX_MODE_STREAMING)] ∧
    lastWriteTo (modeWrites st_c1w.frame_fmt ++ postModeWrites st_c1w.nlanes
        ++ st_c1w.debug_regs) 0x3403 = some 0x42 :=
  have h := c1_config_write_order okBus 0 idSetup 0 st_c1w st_c1w rfl le_rfl rfl rfl rfl
    (fun _ _ => rfl)
  ⟨rfl, rfl, rfl, h.1, h.2.1, h.2.2.1, h.2.2.2 0x3403 0x42 (by decide)⟩

/-- Witness for C9 amended: index 1 with the shared code is rejected, and a
foreign code at index 0 falls back to entry 0. -/
theorem c9_enum_frame_size_behavior_witness :
    ((0x3014 : Nat) ≠ MEDIA_BUS_FMT_SGRBG8_1X8) ∧
    s5k3l6xx_enum_frame_size 1 MEDIA_BUS_FMT_SGRBG8_1X8 = Except.error (-EINVAL) ∧
    s5k3l6xx_enum_frame_size 0 0x3014 =
      Except.ok { code := MEDIA_BUS_FMT_SGRBG8_1X8, min_width := 1052, max_width := 1052,
                  min_height := 780, max_height := 780 } :=
  have h := c9_enum_frame_size_behavior
  ⟨by decide, h.2.1 0 MEDIA_BUS_FMT_SGRBG8_1X8, h.2.2 0x3014 (by decide)⟩
